import Mathlib

/-!
Verification of the pathway entity of the transitfeed repository
(src/transitfeed/pathway.py): construction and normalization of a
pathway record, its pre-registration and post-registration validators,
and the orchestration of the two phases.

The embedding models Python dynamic values with the inductive type
`Value` (the values a pathway field can hold: `None`, an `int`, or a
`str`).  The problem reporter and the registry are external
collaborators; their observable use is captured as a trace of `Event`s
(problem reports and stop-collection lookups).  A validator that can
raise an uncaught Python exception (attribute access on a missing
schedule, a key lookup of an unknown stop id, `+` on a non-integer)
returns an `Option`, with `Option.none` standing for the exception.
Distances are rationals, standing in for the Python floats returned by
the external distance primitive; all comparisons the code performs on
them are order comparisons, which floats and rationals decide alike on
the values in scope.
-/

/-- A Python value that a pathway field can hold: `None`, an integer, or a
string. -/
inductive Value where
  | none : Value
  | int : Int → Value
  | str : String → Value
deriving DecidableEq, Repr

/-- Severity of a reported problem: the reporter methods default to error
and accept an explicit warning type. -/
inductive Severity where
  | error : Severity
  | warning : Severity
deriving DecidableEq, Repr

/-- One call to the external problem reporter, with the arguments the code
passes (field name, offending value, optional reason, severity). -/
inductive Problem where
  | MissingValue (field : String) : Problem
  | InvalidValue (field : String) (value : Value) (reason : Option String)
      (type : Severity) : Problem
  | MinimumPathwayTimeSetWithInvalidPathwayMode (pathway_mode : Value) : Problem
  | PathwayDistanceTooBig (from_stop_id to_stop_id : Value) (distance : ℚ)
      (type : Severity) : Problem
  | PathwayWalkingSpeedTooFast (from_stop_id to_stop_id : Value)
      (transfer_time : Int) (distance : ℚ) : Problem
deriving DecidableEq, Repr

/-- An observable effect of validation: a report to the problem reporter, or
a lookup of a stop id in the stop collection of the registry. -/
inductive Event where
  | report (p : Problem) : Event
  | stopsLookup (stop_id : Value) : Event
deriving DecidableEq, Repr

/-- Tests whether an event is a registry lookup. -/
def Event.isLookup : Event → Bool
  | Event.stopsLookup _ => true
  | Event.report _ => false

/-- The registry (schedule) collaborator, reduced to what this core uses:
the keys of its stop collection and the external distance primitive
(`util.ApproximateDistanceBetweenStops` applied to the two resolved stops,
abstracted as a function of the two stop ids). -/
structure Schedule where
  stops : List Value
  dist : Value → Value → ℚ

/-- A pathway record after construction: the normalized fields and the weak
back-reference to the owning schedule (`self._schedule`, set by the
registry on registration, `Option.none` when unattached). -/
structure Pathway where
  _schedule : Option Schedule
  pathway_id : Value
  from_stop_id : Value
  to_stop_id : Value
  pathway_mode : Value
  is_bidirectional : Value
  traversal_time : Value

/-- Modelled from the spec: `util.IsEmpty` (the util module of the
repository is not under src/).  A field value is empty when it is absent
(`None`) or a blank string (empty or whitespace-only). -/
def util.IsEmpty : Value → Bool
  | Value.none => true
  | Value.str s => s.data.all Char.isWhitespace
  | Value.int _ => false

/-- Modelled from the spec: `util.NonNegIntStringToInt` (the util module of
the repository is not under src/).  Parses a string that denotes a
non-negative integer; every other input (a non-numeric or negative textual
form, or a non-string value) fails, which the callers of the constructor
observe as a swallowed `TypeError`/`ValueError`. -/
def util.NonNegIntStringToInt : Value → Option Int
  | Value.str s =>
      if s.data ≠ [] ∧ s.data.all Char.isDigit then
        Option.some (Int.ofNat
          (s.data.foldl (fun acc c => 10 * acc + (c.toNat - 48)) 0))
      else Option.none
  | _ => Option.none

/-- Embeds the `pathway_mode` normalization inside `Pathway.__init__`
(pathway.py lines 42 to 49): an absent attribute (`getattr` default),
`None` or the empty string becomes the default 2; otherwise a
non-negative-integer parse is attempted and on failure the original value
is kept (the `except` clause swallows the exception). -/
def normalizePathwayMode : Option Value → Value
  | Option.none => Value.int 2
  | Option.some v =>
      if v = Value.none ∨ v = Value.str ("") then Value.int 2
      else
        match util.NonNegIntStringToInt v with
        | Option.some n => Value.int n
        | Option.none => v

/-- Embeds the `traversal_time` normalization inside `Pathway.__init__`
(pathway.py lines 51 to 57): an absent attribute becomes `None`; a present
value undergoes the same parse, kept unchanged on failure. -/
def normalizeTraversalTime : Option Value → Value
  | Option.none => Value.none
  | Option.some v =>
      match util.NonNegIntStringToInt v with
      | Option.some n => Value.int n
      | Option.none => v

/-- Embeds `Pathway.__init__` on the explicit-fields path (no `field_dict`,
pathway.py lines 29 to 57): every field is assigned (each parameter
defaults to `None` in the source, which a caller passes as `Value.none`),
then `pathway_mode` and `traversal_time` are normalized.  The
back-reference `_schedule` is `schedule` when a schedule was supplied,
because the registration side effect (line 62, see `initScheduleCalls`)
makes the external registry set it; otherwise it stays `None` as assigned
on line 31. -/
def Pathway.initFields (schedule : Option Schedule)
    (pathway_id from_stop_id to_stop_id pathway_mode is_bidirectional
      traversal_time : Value) : Pathway :=
  { _schedule := schedule
    pathway_id := pathway_id
    from_stop_id := from_stop_id
    to_stop_id := to_stop_id
    pathway_mode := normalizePathwayMode (Option.some pathway_mode)
    is_bidirectional := is_bidirectional
    traversal_time := normalizeTraversalTime (Option.some traversal_time) }

/-- A field mapping for the `field_dict` construction path: `Option.none`
is a key that is absent from the mapping (so the attribute is never set on
the object). -/
structure FieldDict where
  pathway_id : Option Value
  from_stop_id : Option Value
  to_stop_id : Option Value
  pathway_mode : Option Value
  is_bidirectional : Option Value
  traversal_time : Option Value

/-- Embeds `Pathway.__init__` on the `field_dict` path (pathway.py lines
32 to 33 then 42 to 57): the mapping is merged into the object, after
which `pathway_mode` is read with a `getattr` defaulting to `None` and
`traversal_time` is guarded by `hasattr`.  An identifying or descriptive
attribute that the mapping leaves absent is modelled as `Value.none`
(no claim inspects such an attribute; the code would raise
`AttributeError` on access). -/
def Pathway.initDict (schedule : Option Schedule) (d : FieldDict) : Pathway :=
  { _schedule := schedule
    pathway_id := d.pathway_id.getD Value.none
    from_stop_id := d.from_stop_id.getD Value.none
    to_stop_id := d.to_stop_id.getD Value.none
    pathway_mode := normalizePathwayMode d.pathway_mode
    is_bidirectional := d.is_bidirectional.getD Value.none
    traversal_time := normalizeTraversalTime d.traversal_time }

/-- An opaque token identifying a problem reporter passed to a registry
call, so that call argument lists can be compared. -/
def Reporter : Type := Nat

/-- One `AddPathwayObject` call observed by the registry collaborator: the
record passed and, when one was supplied, the reporter argument. -/
structure RegCall where
  record : Pathway
  reporter : Option Reporter

/-- Embeds the registration side effect at the end of `Pathway.__init__`
(pathway.py lines 58 to 62): when a schedule was supplied the constructor
calls `schedule.AddPathwayObject(self)`, passing no reporter; otherwise no
registry call is made.  `self` is the record the construction produced. -/
def initScheduleCalls (schedule : Option Schedule) (self : Pathway) :
    List RegCall :=
  match schedule with
  | Option.none => []
  | Option.some _ => [{ record := self, reporter := Option.none }]

/-- Embeds `Pathway.AddToSchedule` (pathway.py lines 197 to 198): delegates
to `schedule.AddPathwayObject(self, problems)`, passing the reporter. -/
def Pathway.AddToSchedule (self : Pathway) (problems : Reporter) : RegCall :=
  { record := self, reporter := Option.some problems }

/-- Embeds `Pathway._ID` (pathway.py lines 194 to 195): the identity key,
the one-column tuple `(pathway_id,)`. -/
def Pathway._ID (self : Pathway) : List Value :=
  [self.pathway_id]

/-- Reason string of the negative `traversal_time` report (pathway.py lines
97 to 98). -/
def negativeTimeReason : String :=
  "This field cannot contain a negative value."

/-- Reason string of the over-24h `traversal_time` report (pathway.py lines
101 to 103). -/
def veryLargeTimeReason : String :=
  "The value is very large for a transfer time and most likely indicates an error."

/-- Reason string of the over-3h `traversal_time` warning (pathway.py lines
107 to 109). -/
def largeTimeReason : String :=
  "The value is large for a transfer time and most likely indicates an error."

/-- Reason string of the non-integer `traversal_time` report (pathway.py
lines 113 to 114). -/
def nonIntegerTimeReason : String :=
  "If present, this field should contain an integer value."

/-- Embeds `Pathway.ValidateFromStopIdIsPresent` (pathway.py lines 64 to
68): reports `MissingValue` and fails when `from_stop_id` is empty. -/
def Pathway.ValidateFromStopIdIsPresent (self : Pathway) : List Event × Bool :=
  if util.IsEmpty self.from_stop_id then
    ([Event.report (Problem.MissingValue ("from_stop_id"))], false)
  else ([], true)

/-- Embeds `Pathway.ValidateToStopIdIsPresent` (pathway.py lines 70 to
74). -/
def Pathway.ValidateToStopIdIsPresent (self : Pathway) : List Event × Bool :=
  if util.IsEmpty self.to_stop_id then
    ([Event.report (Problem.MissingValue ("to_stop_id"))], false)
  else ([], true)

/-- Tests `isinstance(v, int)` for a pathway field value. -/
def Value.isInt : Value → Bool
  | Value.int _ => true
  | _ => false

/-- Tests `v in range(1, 8)`: membership of an integer in 1..7; a
non-integer is in no `range`. -/
def Value.inRange1to8 : Value → Bool
  | Value.int m => decide (1 ≤ m ∧ m < 8)
  | _ => false

/-- Embeds `Pathway.ValidatePathwayMode` (pathway.py lines 76 to 82): a
non-empty `pathway_mode` that is not an integer in 1..7 is reported as
`InvalidValue` (default severity, no reason) and fails the check. -/
def Pathway.ValidatePathwayMode (self : Pathway) : List Event × Bool :=
  if ¬ util.IsEmpty self.pathway_mode then
    if ¬ self.pathway_mode.isInt ∨ ¬ self.pathway_mode.inRange1to8 then
      ([Event.report (Problem.InvalidValue ("pathway_mode") self.pathway_mode
          Option.none Severity.error)], false)
    else ([], true)
  else ([], true)

/-- The mode-mismatch report inside `Pathway.ValidateMinimumPathwayTime`
(pathway.py lines 86 to 88): a `traversal_time` together with a
`pathway_mode` other than 2 is reported, non-blocking. -/
def modeMismatchEvents (self : Pathway) : List Event :=
  if self.pathway_mode ≠ Value.int 2 then
    [Event.report (Problem.MinimumPathwayTimeSetWithInvalidPathwayMode
        self.pathway_mode)]
  else []

/-- Embeds `Pathway.ValidateMinimumPathwayTime` (pathway.py lines 84 to
116): on a non-empty `traversal_time`, first the mode-mismatch report, then
the time-range reports for an integer value (negative and over-24h at error
severity, over-3h at warning severity, all non-blocking), and a blocking
`InvalidValue` report for a non-integer value. -/
def Pathway.ValidateMinimumPathwayTime (self : Pathway) : List Event × Bool :=
  if ¬ util.IsEmpty self.traversal_time then
    match self.traversal_time with
    | Value.int t =>
        if t < 0 then
          (modeMismatchEvents self ++
            [Event.report (Problem.InvalidValue ("traversal_time")
              (Value.int t) (Option.some negativeTimeReason) Severity.error)],
            true)
        else if 24 * 3600 ≤ t then
          (modeMismatchEvents self ++
            [Event.report (Problem.InvalidValue ("traversal_time")
              (Value.int t) (Option.some veryLargeTimeReason) Severity.error)],
            true)
        else if 3 * 3600 ≤ t then
          (modeMismatchEvents self ++
            [Event.report (Problem.InvalidValue ("traversal_time")
              (Value.int t) (Option.some largeTimeReason) Severity.warning)],
            true)
        else (modeMismatchEvents self, true)
    | v =>
        (modeMismatchEvents self ++
          [Event.report (Problem.InvalidValue ("traversal_time") v
            (Option.some nonIntegerTimeReason) Severity.error)],
          false)
  else ([], true)

/-- Embeds `Pathway.GetPathwayDistance` (pathway.py lines 118 to 122): both
stops are looked up in the stop collection of the schedule and the external
distance primitive is applied to them.  `Option.none` models the uncaught
`AttributeError` (no schedule) or `KeyError` (unknown stop id); the events
record the registry lookups. -/
def Pathway.GetPathwayDistance (self : Pathway) : Option (List Event × ℚ) :=
  match self._schedule with
  | Option.none => Option.none
  | Option.some s =>
      if self.from_stop_id ∈ s.stops then
        if self.to_stop_id ∈ s.stops then
          Option.some
            ([Event.stopsLookup self.from_stop_id,
              Event.stopsLookup self.to_stop_id],
              s.dist self.from_stop_id self.to_stop_id)
        else Option.none
      else Option.none

/-- Embeds `Pathway.ValidateFromStopIdIsValid` (pathway.py lines 124 to
128): a membership test of `from_stop_id` against the stop keys, reporting
`InvalidValue` and failing when absent.  `Option.none` models the uncaught
`AttributeError` when the record has no schedule. -/
def Pathway.ValidateFromStopIdIsValid (self : Pathway) :
    Option (List Event × Bool) :=
  match self._schedule with
  | Option.none => Option.none
  | Option.some s =>
      if self.from_stop_id ∈ s.stops then
        Option.some ([Event.stopsLookup self.from_stop_id], true)
      else
        Option.some
          ([Event.stopsLookup self.from_stop_id,
            Event.report (Problem.InvalidValue ("from_stop_id")
              self.from_stop_id Option.none Severity.error)], false)

/-- Embeds `Pathway.ValidateToStopIdIsValid` (pathway.py lines 130 to
134). -/
def Pathway.ValidateToStopIdIsValid (self : Pathway) :
    Option (List Event × Bool) :=
  match self._schedule with
  | Option.none => Option.none
  | Option.some s =>
      if self.to_stop_id ∈ s.stops then
        Option.some ([Event.stopsLookup self.to_stop_id], true)
      else
        Option.some
          ([Event.stopsLookup self.to_stop_id,
            Event.report (Problem.InvalidValue ("to_stop_id")
              self.to_stop_id Option.none Severity.error)], false)

/-- Embeds `Pathway.ValidatePathwayDistance` (pathway.py lines 136 to 147):
a distance above 10000 is reported as `PathwayDistanceTooBig` at the
default error severity, else one above 2000 at warning severity, else
nothing.  The function returns no boolean in the source. -/
def Pathway.ValidatePathwayDistance (self : Pathway) : Option (List Event) :=
  match self.GetPathwayDistance with
  | Option.none => Option.none
  | Option.some (evs, distance) =>
      if distance > 10000 then
        Option.some (evs ++
          [Event.report (Problem.PathwayDistanceTooBig self.from_stop_id
            self.to_stop_id distance Severity.error)])
      else if distance > 2000 then
        Option.some (evs ++
          [Event.report (Problem.PathwayDistanceTooBig self.from_stop_id
            self.to_stop_id distance Severity.warning)])
      else Option.some evs

/-- The Python 2 semantics of `v < 0` for the values `traversal_time` can
hold: an integer compares numerically, `None` is smaller than every
number, and a string is greater than every number (so the comparison never
raises). -/
def Value.ltZero : Value → Bool
  | Value.int t => decide (t < 0)
  | Value.none => true
  | Value.str _ => false

/-- Embeds `Pathway.ValidatePathwayWalkingTime` (pathway.py lines 149 to
169): an empty or negative `traversal_time` returns with no report; else
the distance is computed and, when `traversal_time + 120` seconds does not
suffice at the fast walking speed of 2 m/s (strictly less than
`distance / 2`), a `PathwayWalkingSpeedTooFast` warning carrying both stop
ids, the traversal time and the distance is reported.  `Option.none`
models the uncaught exception of the distance lookup, or the `TypeError`
of `+` when a non-empty `traversal_time` is not an integer. -/
def Pathway.ValidatePathwayWalkingTime (self : Pathway) :
    Option (List Event) :=
  if util.IsEmpty self.traversal_time then Option.some []
  else if self.traversal_time.ltZero then Option.some []
  else
    match self.GetPathwayDistance with
    | Option.none => Option.none
    | Option.some (evs, distance) =>
        match self.traversal_time with
        | Value.int t =>
            if (t : ℚ) + 120 < distance / 2 then
              Option.some (evs ++
                [Event.report (Problem.PathwayWalkingSpeedTooFast
                  self.from_stop_id self.to_stop_id t distance)])
            else Option.some evs
        | _ => Option.none

/-- Embeds `Pathway.ValidateBeforeAdd` (pathway.py lines 171 to 177): the
four pre-registration checks are each called unconditionally (Python
evaluates the call on the left of `and` first), their reports accumulate
in order, and the result is the conjunction accumulated by
`result = check(...) and result`. -/
def Pathway.ValidateBeforeAdd (self : Pathway) : List Event × Bool :=
  let c1 := self.ValidateFromStopIdIsPresent
  let c2 := self.ValidateToStopIdIsPresent
  let c3 := self.ValidatePathwayMode
  let c4 := self.ValidateMinimumPathwayTime
  (c1.1 ++ c2.1 ++ c3.1 ++ c4.1, c4.2 && (c3.2 && (c2.2 && (c1.2 && true))))

/-- Embeds `Pathway.ValidateAfterAdd` (pathway.py lines 179 to 187): both
stop-id resolvability checks are called unconditionally and, only when
both succeeded, the distance and walking-time checks follow. -/
def Pathway.ValidateAfterAdd (self : Pathway) : Option (List Event) :=
  match self.ValidateFromStopIdIsValid with
  | Option.none => Option.none
  | Option.some (e1, b1) =>
      match self.ValidateToStopIdIsValid with
      | Option.none => Option.none
      | Option.some (e2, b2) =>
          if b1 && b2 then
            match self.ValidatePathwayDistance with
            | Option.none => Option.none
            | Option.some e3 =>
                match self.ValidatePathwayWalkingTime with
                | Option.none => Option.none
                | Option.some e4 => Option.some (e1 ++ e2 ++ e3 ++ e4)
          else Option.some (e1 ++ e2)

/-- Embeds `Pathway.Validate` (pathway.py lines 189 to 192): the
pre-registration phase runs first and the post-registration phase runs
exactly when it passed and the record is attached to a schedule
(`self._schedule` is truthy). -/
def Pathway.Validate (self : Pathway) : Option (List Event) :=
  let c := self.ValidateBeforeAdd
  if c.2 && self._schedule.isSome then
    match self.ValidateAfterAdd with
    | Option.none => Option.none
    | Option.some e2 => Option.some (c.1 ++ e2)
  else Option.some c.1

/-- A concrete stop id used by concrete instances. -/
def stopA : Value := Value.str ("A")

/-- A second concrete stop id used by concrete instances. -/
def stopB : Value := Value.str ("B")

/-- A concrete schedule holding the two stops, whose distance primitive
returns the constant `q` meters. -/
def exampleSchedule (q : ℚ) : Schedule :=
  { stops := [stopA, stopB], dist := fun _ _ => q }

/-- A concrete pathway attached to `exampleSchedule q`, from `stopA` to
`stopB`, with the default mode 2 and the given `traversal_time`. -/
def examplePathway (q : ℚ) (tt : Value) : Pathway :=
  { _schedule := Option.some (exampleSchedule q)
    pathway_id := Value.str ("p1")
    from_stop_id := stopA
    to_stop_id := stopB
    pathway_mode := Value.int 2
    is_bidirectional := Value.int 1
    traversal_time := tt }

/-- C1, counterexample: with the two stops 5001 meters apart,
`ValidatePathwayDistance` reports `PathwayDistanceTooBig` at warning
severity, not at error severity as the claim states (5001 is not above the
10000-meter error threshold). -/
theorem claimC1_counterexample :
    (examplePathway 5001 Value.none).ValidatePathwayDistance =
      Option.some [Event.stopsLookup stopA, Event.stopsLookup stopB,
        Event.report (Problem.PathwayDistanceTooBig stopA stopB 5001
          Severity.warning)] ∧
    Severity.warning ≠ Severity.error := by
  exact ⟨by decide, by decide⟩

/-- C1, amended: for a record whose two referenced stops resolve in the
registry, with the stops 5001 meters apart `ValidatePathwayDistance`
reports `PathwayDistanceTooBig` at warning severity; with the stops 3000
meters apart it reports `PathwayDistanceTooBig` at warning severity; with
the stops 1500 meters apart it reports no distance problem. -/
theorem claimC1 (p : Pathway) (s : Schedule)
    (hs : p._schedule = Option.some s)
    (h1 : p.from_stop_id ∈ s.stops) (h2 : p.to_stop_id ∈ s.stops) :
    (s.dist p.from_stop_id p.to_stop_id = 5001 →
      p.ValidatePathwayDistance = Option.some
        [Event.stopsLookup p.from_stop_id, Event.stopsLookup p.to_stop_id,
         Event.report (Problem.PathwayDistanceTooBig p.from_stop_id
           p.to_stop_id 5001 Severity.warning)]) ∧
    (s.dist p.from_stop_id p.to_stop_id = 3000 →
      p.ValidatePathwayDistance = Option.some
        [Event.stopsLookup p.from_stop_id, Event.stopsLookup p.to_stop_id,
         Event.report (Problem.PathwayDistanceTooBig p.from_stop_id
           p.to_stop_id 3000 Severity.warning)]) ∧
    (s.dist p.from_stop_id p.to_stop_id = 1500 →
      p.ValidatePathwayDistance = Option.some
        [Event.stopsLookup p.from_stop_id, Event.stopsLookup p.to_stop_id]) := by
  unfold Pathway.ValidatePathwayDistance Pathway.GetPathwayDistance
  rw [hs]
  simp only [if_pos h1, if_pos h2]
  refine ⟨?_, ?_, ?_⟩ <;> intro hd <;> rw [hd] <;> norm_num

/-- C1, witness: the amended statement evaluated on concrete records 3000
and 1500 meters apart. -/
theorem claimC1_witness :
    (examplePathway 3000 Value.none).ValidatePathwayDistance =
      Option.some [Event.stopsLookup stopA, Event.stopsLookup stopB,
        Event.report (Problem.PathwayDistanceTooBig stopA stopB 3000
          Severity.warning)] ∧
    (examplePathway 1500 Value.none).ValidatePathwayDistance =
      Option.some [Event.stopsLookup stopA, Event.stopsLookup stopB] := by
  constructor
  · exact (claimC1 (examplePathway 3000 Value.none) (exampleSchedule 3000)
      rfl (by decide) (by decide)).2.1 rfl
  · exact (claimC1 (examplePathway 1500 Value.none) (exampleSchedule 1500)
      rfl (by decide) (by decide)).2.2 rfl

/-- C2: for every record whose two referenced stops resolve,
`ValidatePathwayDistance` applies exactly one branch on the computed
distance d: d strictly above 10000 reports `PathwayDistanceTooBig` at
error severity; otherwise d strictly above 2000 reports it at warning
severity; otherwise nothing is reported. -/
theorem claimC2 (p : Pathway) (s : Schedule)
    (hs : p._schedule = Option.some s)
    (h1 : p.from_stop_id ∈ s.stops) (h2 : p.to_stop_id ∈ s.stops) :
    (10000 < s.dist p.from_stop_id p.to_stop_id →
      p.ValidatePathwayDistance = Option.some
        [Event.stopsLookup p.from_stop_id, Event.stopsLookup p.to_stop_id,
         Event.report (Problem.PathwayDistanceTooBig p.from_stop_id
           p.to_stop_id (s.dist p.from_stop_id p.to_stop_id)
           Severity.error)]) ∧
    (s.dist p.from_stop_id p.to_stop_id ≤ 10000 →
      2000 < s.dist p.from_stop_id p.to_stop_id →
      p.ValidatePathwayDistance = Option.some
        [Event.stopsLookup p.from_stop_id, Event.stopsLookup p.to_stop_id,
         Event.report (Problem.PathwayDistanceTooBig p.from_stop_id
           p.to_stop_id (s.dist p.from_stop_id p.to_stop_id)
           Severity.warning)]) ∧
    (s.dist p.from_stop_id p.to_stop_id ≤ 2000 →
      p.ValidatePathwayDistance = Option.some
        [Event.stopsLookup p.from_stop_id, Event.stopsLookup p.to_stop_id]) := by
  unfold Pathway.ValidatePathwayDistance Pathway.GetPathwayDistance
  rw [hs]
  simp only [if_pos h1, if_pos h2]
  refine ⟨?_, ?_, ?_⟩
  · intro h; rw [if_pos h]; rfl
  · intro hle hgt; rw [if_neg (not_lt.mpr hle), if_pos hgt]; rfl
  · intro hle
    rw [if_neg (not_lt.mpr (le_trans hle (by norm_num))),
      if_neg (not_lt.mpr hle)]

/-- C2, witness: the three branches evaluated on concrete records 12000,
3000 and 1500 meters apart. -/
theorem claimC2_witness :
    (examplePathway 12000 Value.none).ValidatePathwayDistance =
      Option.some [Event.stopsLookup stopA, Event.stopsLookup stopB,
        Event.report (Problem.PathwayDistanceTooBig stopA stopB 12000
          Severity.error)] := by
  exact (claimC2 (examplePathway 12000 Value.none) (exampleSchedule 12000)
    rfl (by decide) (by decide)).1 (by decide)

/-- C3: `ValidatePathwayWalkingTime` reports nothing when `traversal_time`
is empty or a negative integer; otherwise, for a non-negative integer
traversal time t and computed distance d, it reports a
`PathwayWalkingSpeedTooFast` warning carrying both stop ids, t and d,
exactly when t + 120 < d / 2; consequently, whenever d is at most 240
meters, no walking-speed warning is reported. -/
theorem claimC3 (p : Pathway) :
    (util.IsEmpty p.traversal_time = true →
      p.ValidatePathwayWalkingTime = Option.some []) ∧
    (∀ t : Int, p.traversal_time = Value.int t → t < 0 →
      p.ValidatePathwayWalkingTime = Option.some []) ∧
    (∀ (s : Schedule) (t : Int), p._schedule = Option.some s →
      p.from_stop_id ∈ s.stops → p.to_stop_id ∈ s.stops →
      p.traversal_time = Value.int t → 0 ≤ t →
      (p.ValidatePathwayWalkingTime = Option.some
        ([Event.stopsLookup p.from_stop_id, Event.stopsLookup p.to_stop_id] ++
          (if (t : ℚ) + 120 < s.dist p.from_stop_id p.to_stop_id / 2 then
            [Event.report (Problem.PathwayWalkingSpeedTooFast p.from_stop_id
              p.to_stop_id t (s.dist p.from_stop_id p.to_stop_id))]
          else []))) ∧
      (s.dist p.from_stop_id p.to_stop_id ≤ 240 →
        p.ValidatePathwayWalkingTime = Option.some
          [Event.stopsLookup p.from_stop_id, Event.stopsLookup p.to_stop_id])) := by
  refine ⟨?_, ?_, ?_⟩
  · intro h
    simp [Pathway.ValidatePathwayWalkingTime, h]
  · intro t ht hneg
    simp [Pathway.ValidatePathwayWalkingTime, ht, util.IsEmpty,
      Value.ltZero, hneg]
  · intro s t hs h1 h2 ht htnn
    have hmain : p.ValidatePathwayWalkingTime = Option.some
        ([Event.stopsLookup p.from_stop_id, Event.stopsLookup p.to_stop_id] ++
          (if (t : ℚ) + 120 < s.dist p.from_stop_id p.to_stop_id / 2 then
            [Event.report (Problem.PathwayWalkingSpeedTooFast p.from_stop_id
              p.to_stop_id t (s.dist p.from_stop_id p.to_stop_id))]
          else [])) := by
      by_cases hc : (t : ℚ) + 120 < s.dist p.from_stop_id p.to_stop_id / 2 <;>
        simp [Pathway.ValidatePathwayWalkingTime, Pathway.GetPathwayDistance,
          ht, hs, h1, h2, util.IsEmpty, Value.ltZero, htnn.not_lt, hc]
    refine ⟨hmain, ?_⟩
    intro hd
    rw [hmain, if_neg ?_]
    · simp
    · intro hc
      have h0 : (0 : ℚ) ≤ (t : ℚ) := by exact_mod_cast htnn
      nlinarith [hc, hd, h0]

/-- C3, witness: stops 500 meters apart with traversal time 100 produce
the warning (220 < 250); stops 200 meters apart with traversal time 0
produce none (the 240-meter exemption). -/
theorem claimC3_witness :
    (examplePathway 500 (Value.int 100)).ValidatePathwayWalkingTime =
      Option.some [Event.stopsLookup stopA, Event.stopsLookup stopB,
        Event.report (Problem.PathwayWalkingSpeedTooFast stopA stopB 100 500)] ∧
    (examplePathway 200 (Value.int 0)).ValidatePathwayWalkingTime =
      Option.some [Event.stopsLookup stopA, Event.stopsLookup stopB] := by
  constructor
  · have h := ((claimC3 (examplePathway 500 (Value.int 100))).2.2
      (exampleSchedule 500) 100 rfl (by decide) (by decide) rfl
      (by norm_num)).1
    rw [h, if_pos (by norm_num [exampleSchedule])]
    rfl
  · exact ((claimC3 (examplePathway 200 (Value.int 0))).2.2
      (exampleSchedule 200) 0 rfl (by decide) (by decide) rfl
      (by norm_num)).2 (by norm_num [exampleSchedule])

/-- C4: for every record with an integer `traversal_time` t,
`ValidateMinimumPathwayTime` reports `InvalidValue` at error severity when
t is negative, at error severity when t is at least 24 hours, at warning
severity when t is between 3 and 24 hours, and no time-range problem when
t is below 3 hours; in all integer cases it returns success, and it
returns failure exactly when a non-empty `traversal_time` is not an
integer. -/
theorem claimC4 (p : Pathway) :
    (∀ t : Int, p.traversal_time = Value.int t →
      ((t < 0 → p.ValidateMinimumPathwayTime =
          (modeMismatchEvents p ++ [Event.report (Problem.InvalidValue
            ("traversal_time") (Value.int t) (Option.some negativeTimeReason)
            Severity.error)], true)) ∧
       (24 * 3600 ≤ t → p.ValidateMinimumPathwayTime =
          (modeMismatchEvents p ++ [Event.report (Problem.InvalidValue
            ("traversal_time") (Value.int t) (Option.some veryLargeTimeReason)
            Severity.error)], true)) ∧
       (3 * 3600 ≤ t → t < 24 * 3600 → p.ValidateMinimumPathwayTime =
          (modeMismatchEvents p ++ [Event.report (Problem.InvalidValue
            ("traversal_time") (Value.int t) (Option.some largeTimeReason)
            Severity.warning)], true)) ∧
       (0 ≤ t → t < 3 * 3600 →
          p.ValidateMinimumPathwayTime = (modeMismatchEvents p, true)))) ∧
    ((p.ValidateMinimumPathwayTime).2 = false ↔
      (util.IsEmpty p.traversal_time = false ∧
        p.traversal_time.isInt = false)) := by
  constructor
  · intro t ht
    refine ⟨?_, ?_, ?_, ?_⟩
    · intro hneg
      simp [Pathway.ValidateMinimumPathwayTime, ht, util.IsEmpty, hneg]
    · intro hbig
      simp [Pathway.ValidateMinimumPathwayTime, ht, util.IsEmpty]
      rw [if_neg (show ¬ t < 0 by omega),
        if_pos (show (86400 : Int) ≤ t by omega)]
    · intro hlarge hsmall
      simp [Pathway.ValidateMinimumPathwayTime, ht, util.IsEmpty]
      rw [if_neg (show ¬ t < 0 by omega),
        if_neg (show ¬ (86400 : Int) ≤ t by omega),
        if_pos (show (10800 : Int) ≤ t by omega)]
    · intro hnn hsmall
      simp [Pathway.ValidateMinimumPathwayTime, ht, util.IsEmpty]
      rw [if_neg (by omega), if_neg (by omega), if_neg (by omega)]
  · constructor
    · intro h
      cases htv : p.traversal_time with
      | none =>
          exfalso
          simp [Pathway.ValidateMinimumPathwayTime, htv, util.IsEmpty] at h
      | int t =>
          exfalso
          simp [Pathway.ValidateMinimumPathwayTime, htv, util.IsEmpty,
            apply_ite Prod.snd] at h
      | str s =>
          by_cases he : util.IsEmpty (Value.str s) = true
          · exfalso
            simp [Pathway.ValidateMinimumPathwayTime, htv, he] at h
          · exact ⟨by simpa using he, by simp [Value.isInt]⟩
    · intro ⟨he, hi⟩
      cases htv : p.traversal_time with
      | none => rw [htv] at he; simp [util.IsEmpty] at he
      | int t => rw [htv] at hi; simp [Value.isInt] at hi
      | str s =>
          rw [htv] at he
          simp [Pathway.ValidateMinimumPathwayTime, htv, he]

/-- C4, witness: a traversal time of 3 hours on a record with the default
mode yields the warning report and success. -/
theorem claimC4_witness :
    (examplePathway 500 (Value.int 10800)).ValidateMinimumPathwayTime =
      ([Event.report (Problem.InvalidValue ("traversal_time")
        (Value.int 10800) (Option.some largeTimeReason) Severity.warning)],
        true) := by
  have h := ((claimC4 (examplePathway 500 (Value.int 10800))).1 10800
    rfl).2.2.1 (by norm_num) (by norm_num)
  rw [h]
  rfl

/-- C5: `ValidateBeforeAdd` invokes all four pre-registration checks on
every call (their reports accumulate in order regardless of earlier
failures) and returns exactly the conjunction of the four individual
results. -/
theorem claimC5 (p : Pathway) :
    p.ValidateBeforeAdd =
      (p.ValidateFromStopIdIsPresent.1 ++ p.ValidateToStopIdIsPresent.1 ++
        p.ValidatePathwayMode.1 ++ p.ValidateMinimumPathwayTime.1,
       p.ValidateFromStopIdIsPresent.2 && p.ValidateToStopIdIsPresent.2 &&
        p.ValidatePathwayMode.2 && p.ValidateMinimumPathwayTime.2) := by
  have hb : ∀ b1 b2 b3 b4 : Bool,
      (b4 && (b3 && (b2 && (b1 && true)))) = (b1 && b2 && b3 && b4) := by
    decide
  simp only [Pathway.ValidateBeforeAdd]
  rw [hb]

/-- Every integer produced by the non-negative-integer parse is
non-negative. -/
lemma parse_nonneg {v : Value} {n : Int}
    (h : util.NonNegIntStringToInt v = Option.some n) : 0 ≤ n := by
  cases v with
  | str s =>
      simp only [util.NonNegIntStringToInt] at h
      by_cases hc : s.data ≠ [] ∧ s.data.all Char.isDigit
      · rw [if_pos hc] at h
        cases h
        exact Int.ofNat_nonneg _
      · rw [if_neg hc] at h; cases h
  | none => simp [util.NonNegIntStringToInt] at h
  | int t => simp [util.NonNegIntStringToInt] at h

/-- Case analysis of the normalized `pathway_mode`: the default 2, a
successfully parsed non-negative integer, or the untouched non-blank
original. -/
lemma normMode_cases (raw : Option Value) :
    normalizePathwayMode raw ≠ Value.none ∧
    normalizePathwayMode raw ≠ Value.str ("") ∧
    (normalizePathwayMode raw = Value.int 2 ∨
     (∃ v n, raw = Option.some v ∧ 0 ≤ n ∧
        util.NonNegIntStringToInt v = Option.some n ∧
        normalizePathwayMode raw = Value.int n) ∨
     (∃ v, raw = Option.some v ∧ util.NonNegIntStringToInt v = Option.none ∧
        normalizePathwayMode raw = v ∧ v ≠ Value.none ∧
        v ≠ Value.str (""))) := by
  cases raw with
  | none =>
      exact ⟨by simp [normalizePathwayMode], by simp [normalizePathwayMode],
        Or.inl (by simp [normalizePathwayMode])⟩
  | some v =>
      by_cases hb : v = Value.none ∨ v = Value.str ("")
      · have h2 : normalizePathwayMode (Option.some v) = Value.int 2 := by
          simp only [normalizePathwayMode]; rw [if_pos hb]
        exact ⟨by rw [h2]; simp, by rw [h2]; simp, Or.inl h2⟩
      · cases hp : util.NonNegIntStringToInt v with
        | none =>
            have hv : normalizePathwayMode (Option.some v) = v := by
              simp only [normalizePathwayMode]; rw [if_neg hb, hp]
            push_neg at hb
            exact ⟨by rw [hv]; exact hb.1, by rw [hv]; exact hb.2,
              Or.inr (Or.inr ⟨v, rfl, hp, hv, hb.1, hb.2⟩)⟩
        | some n =>
            have hv : normalizePathwayMode (Option.some v) = Value.int n := by
              simp only [normalizePathwayMode]; rw [if_neg hb, hp]
            exact ⟨by rw [hv]; simp, by rw [hv]; simp,
              Or.inr (Or.inl ⟨v, n, rfl, parse_nonneg hp, hp, hv⟩)⟩

/-- C7: on both construction paths, a `pathway_mode` that is absent,
`None` or the empty string normalizes to 2; otherwise the
non-negative-integer parse is attempted and on failure the original value
is left unchanged (the construction functions are total: no exception
escapes). -/
theorem claimC7 (sched : Option Schedule)
    (pid fsid tsid pm bid tt : Value) (d : FieldDict) :
    ((pm = Value.none ∨ pm = Value.str ("")) →
      (Pathway.initFields sched pid fsid tsid pm bid tt).pathway_mode =
        Value.int 2) ∧
    ((d.pathway_mode = Option.none ∨ d.pathway_mode = Option.some Value.none ∨
        d.pathway_mode = Option.some (Value.str (""))) →
      (Pathway.initDict sched d).pathway_mode = Value.int 2) ∧
    (¬ (pm = Value.none ∨ pm = Value.str ("")) →
      (util.NonNegIntStringToInt pm = Option.none →
        (Pathway.initFields sched pid fsid tsid pm bid tt).pathway_mode =
          pm) ∧
      (∀ n, util.NonNegIntStringToInt pm = Option.some n →
        (Pathway.initFields sched pid fsid tsid pm bid tt).pathway_mode =
          Value.int n)) ∧
    (∀ v, d.pathway_mode = Option.some v →
      ¬ (v = Value.none ∨ v = Value.str ("")) →
      (util.NonNegIntStringToInt v = Option.none →
        (Pathway.initDict sched d).pathway_mode = v) ∧
      (∀ n, util.NonNegIntStringToInt v = Option.some n →
        (Pathway.initDict sched d).pathway_mode = Value.int n)) := by
  refine ⟨?_, ?_, ?_, ?_⟩
  · intro h
    show normalizePathwayMode (Option.some pm) = Value.int 2
    simp only [normalizePathwayMode]; rw [if_pos h]
  · intro h
    show normalizePathwayMode d.pathway_mode = Value.int 2
    rcases h with h | h | h <;> rw [h] <;> decide
  · intro h
    constructor
    · intro hp
      show normalizePathwayMode (Option.some pm) = pm
      simp only [normalizePathwayMode]; rw [if_neg h, hp]
    · intro n hp
      show normalizePathwayMode (Option.some pm) = Value.int n
      simp only [normalizePathwayMode]; rw [if_neg h, hp]
  · intro v hv h
    constructor
    · intro hp
      show normalizePathwayMode d.pathway_mode = v
      rw [hv]; simp only [normalizePathwayMode]; rw [if_neg h, hp]
    · intro n hp
      show normalizePathwayMode d.pathway_mode = Value.int n
      rw [hv]; simp only [normalizePathwayMode]; rw [if_neg h, hp]

/-- A concrete field mapping whose `pathway_mode` is the empty string. -/
def exampleFieldDict : FieldDict :=
  { pathway_id := Option.some (Value.str ("p1"))
    from_stop_id := Option.some stopA
    to_stop_id := Option.some stopB
    pathway_mode := Option.some (Value.str (""))
    is_bidirectional := Option.none
    traversal_time := Option.none }

/-- C7, witness: an empty-string mode in a field mapping normalizes to 2,
and a non-numeric explicit mode is left unchanged. -/
theorem claimC7_witness :
    (Pathway.initDict Option.none exampleFieldDict).pathway_mode =
      Value.int 2 ∧
    (Pathway.initFields Option.none (Value.str ("p1")) stopA stopB
      (Value.str ("abc")) Value.none Value.none).pathway_mode =
      Value.str ("abc") := by
  constructor
  · exact (claimC7 Option.none (Value.str ("p1")) stopA stopB
      (Value.str ("abc")) Value.none Value.none exampleFieldDict).2.1
      (Or.inr (Or.inr rfl))
  · exact ((claimC7 Option.none (Value.str ("p1")) stopA stopB
      (Value.str ("abc")) Value.none Value.none exampleFieldDict).2.2.1
      (by simp)).1 (by decide)

/-- C8, counterexample: constructing with the numeric string 9 as
`pathway_mode` yields the successfully parsed integer 9, which is outside
the closed range 1 to 7 and is not the original unparsed input, so a
constructed record can hold a successfully parsed integer outside 1 to
7. -/
theorem claimC8_counterexample :
    util.NonNegIntStringToInt (Value.str ("9")) = Option.some 9 ∧
    (Pathway.initFields Option.none (Value.str ("p1")) stopA stopB
      (Value.str ("9")) Value.none Value.none).pathway_mode = Value.int 9 ∧
    ¬ ((1 : Int) ≤ 9 ∧ (9 : Int) ≤ 7) ∧
    Value.int 9 ≠ Value.str ("9") := by
  exact ⟨by decide, by decide, by decide, by decide⟩

/-- C8, amended: after every construction, `pathway_mode` is the default
2, a successfully parsed non-negative integer (not necessarily within 1
to 7; an out-of-range one is flagged later by `ValidatePathwayMode`), or
the un-normalizable original value, and it is never blank (`None` or the
empty string). -/
theorem claimC8 (sched : Option Schedule)
    (pid fsid tsid pm bid tt : Value) (d : FieldDict) :
    ((Pathway.initFields sched pid fsid tsid pm bid tt).pathway_mode ≠
        Value.none ∧
     (Pathway.initFields sched pid fsid tsid pm bid tt).pathway_mode ≠
        Value.str ("") ∧
     ((Pathway.initFields sched pid fsid tsid pm bid tt).pathway_mode =
        Value.int 2 ∨
      (∃ n, 0 ≤ n ∧ util.NonNegIntStringToInt pm = Option.some n ∧
        (Pathway.initFields sched pid fsid tsid pm bid tt).pathway_mode =
          Value.int n) ∨
      (util.NonNegIntStringToInt pm = Option.none ∧
        (Pathway.initFields sched pid fsid tsid pm bid tt).pathway_mode =
          pm))) ∧
    ((Pathway.initDict sched d).pathway_mode ≠ Value.none ∧
     (Pathway.initDict sched d).pathway_mode ≠ Value.str ("") ∧
     ((Pathway.initDict sched d).pathway_mode = Value.int 2 ∨
      (∃ v n, d.pathway_mode = Option.some v ∧ 0 ≤ n ∧
        util.NonNegIntStringToInt v = Option.some n ∧
        (Pathway.initDict sched d).pathway_mode = Value.int n) ∨
      (∃ v, d.pathway_mode = Option.some v ∧
        util.NonNegIntStringToInt v = Option.none ∧
        (Pathway.initDict sched d).pathway_mode = v))) := by
  constructor
  · obtain ⟨h1, h2, h3⟩ := normMode_cases (Option.some pm)
    refine ⟨h1, h2, ?_⟩
    rcases h3 with h | ⟨v, n, hv, hn, hp, hm⟩ | ⟨v, hv, hp, hm, -, -⟩
    · exact Or.inl h
    · cases Option.some.inj hv
      exact Or.inr (Or.inl ⟨n, hn, hp, hm⟩)
    · cases Option.some.inj hv
      exact Or.inr (Or.inr ⟨hp, hm⟩)
  · obtain ⟨h1, h2, h3⟩ := normMode_cases d.pathway_mode
    refine ⟨h1, h2, ?_⟩
    rcases h3 with h | ⟨v, n, hv, hn, hp, hm⟩ | ⟨v, hv, hp, hm, -, -⟩
    · exact Or.inl h
    · exact Or.inr (Or.inl ⟨v, n, hv, hn, hp, hm⟩)
    · exact Or.inr (Or.inr ⟨v, hv, hp, hm⟩)

/-- A concrete reporter token. -/
def exampleReporter : Reporter := (0 : Nat)

/-- A concrete record constructed with a schedule argument. -/
def exampleConstructedPathway : Pathway :=
  Pathway.initFields (Option.some (exampleSchedule 500)) (Value.str ("p1"))
    stopA stopB (Value.int 2) (Value.int 1) Value.none

/-- C9, counterexample: the constructor path calls `AddPathwayObject` with
the record alone (no reporter argument), while an explicit `AddToSchedule`
call passes the reporter as a second argument, so the two registration
calls do not carry the same arguments. -/
theorem claimC9_counterexample :
    initScheduleCalls (Option.some (exampleSchedule 500))
        exampleConstructedPathway =
      [{ record := exampleConstructedPathway, reporter := Option.none }] ∧
    Pathway.AddToSchedule exampleConstructedPathway exampleReporter =
      { record := exampleConstructedPathway,
        reporter := Option.some exampleReporter } ∧
    ({ record := exampleConstructedPathway, reporter := Option.none } :
        RegCall) ≠
      { record := exampleConstructedPathway,
        reporter := Option.some exampleReporter } := by
  refine ⟨rfl, rfl, ?_⟩
  intro h
  exact Option.noConfusion (congrArg RegCall.reporter h)

/-- C9, amended: constructing with a registry argument performs one
registration call on the registry, registering the same record as a
subsequent explicit `AddToSchedule` call would, but the constructor path
passes no problem reporter argument while `AddToSchedule` forwards the
reporter it was given. -/
theorem claimC9 (s : Schedule) (pid fsid tsid pm bid tt : Value)
    (r : Reporter) :
    ∃ c : RegCall,
      initScheduleCalls (Option.some s)
        (Pathway.initFields (Option.some s) pid fsid tsid pm bid tt) = [c] ∧
      c.record = (Pathway.AddToSchedule
        (Pathway.initFields (Option.some s) pid fsid tsid pm bid tt)
        r).record ∧
      c.reporter = Option.none ∧
      (Pathway.AddToSchedule
        (Pathway.initFields (Option.some s) pid fsid tsid pm bid tt)
        r).reporter = Option.some r :=
  ⟨_, rfl, rfl, rfl, rfl⟩

/-- Characterization of the from-stop resolvability check on an attached
record. -/
lemma fromValid_eq (p : Pathway) (s : Schedule)
    (hs : p._schedule = Option.some s) :
    p.ValidateFromStopIdIsValid = Option.some
      (if p.from_stop_id ∈ s.stops then
        ([Event.stopsLookup p.from_stop_id], true)
      else
        ([Event.stopsLookup p.from_stop_id,
          Event.report (Problem.InvalidValue ("from_stop_id")
            p.from_stop_id Option.none Severity.error)], false)) := by
  simp only [Pathway.ValidateFromStopIdIsValid, hs]
  split <;> rfl

/-- Characterization of the to-stop resolvability check on an attached
record. -/
lemma toValid_eq (p : Pathway) (s : Schedule)
    (hs : p._schedule = Option.some s) :
    p.ValidateToStopIdIsValid = Option.some
      (if p.to_stop_id ∈ s.stops then
        ([Event.stopsLookup p.to_stop_id], true)
      else
        ([Event.stopsLookup p.to_stop_id,
          Event.report (Problem.InvalidValue ("to_stop_id")
            p.to_stop_id Option.none Severity.error)], false)) := by
  simp only [Pathway.ValidateToStopIdIsValid, hs]
  split <;> rfl

/-- The from-stop presence check emits no registry lookup. -/
lemma fromPresent_no_lookup (p : Pathway) :
    p.ValidateFromStopIdIsPresent.1.filter Event.isLookup = [] := by
  simp only [Pathway.ValidateFromStopIdIsPresent]
  split <;> rfl

/-- The to-stop presence check emits no registry lookup. -/
lemma toPresent_no_lookup (p : Pathway) :
    p.ValidateToStopIdIsPresent.1.filter Event.isLookup = [] := by
  simp only [Pathway.ValidateToStopIdIsPresent]
  split <;> rfl

/-- The mode check emits no registry lookup. -/
lemma mode_no_lookup (p : Pathway) :
    p.ValidatePathwayMode.1.filter Event.isLookup = [] := by
  simp only [Pathway.ValidatePathwayMode]
  split
  · split <;> rfl
  · rfl

/-- The minimum-pathway-time check emits no registry lookup. -/
lemma minTime_no_lookup (p : Pathway) :
    p.ValidateMinimumPathwayTime.1.filter Event.isLookup = [] := by
  have hm : (modeMismatchEvents p).filter Event.isLookup = [] := by
    simp only [modeMismatchEvents]
    split <;> rfl
  simp only [Pathway.ValidateMinimumPathwayTime]
  split
  · split <;> (try split) <;> (try split) <;> (try split) <;>
      simp [List.filter_append, hm, Event.isLookup]
  · rfl

/-- The whole pre-registration phase emits no registry lookup. -/
lemma beforeAdd_no_lookup (p : Pathway) :
    p.ValidateBeforeAdd.1.filter Event.isLookup = [] := by
  simp only [Pathway.ValidateBeforeAdd, List.filter_append,
    fromPresent_no_lookup, toPresent_no_lookup, mode_no_lookup,
    minTime_no_lookup, List.append_nil]

/-- A passing minimum-pathway-time check forces `traversal_time` to be
empty or an integer. -/
lemma minTime_true_cases (p : Pathway)
    (h : p.ValidateMinimumPathwayTime.2 = true) :
    util.IsEmpty p.traversal_time = true ∨
      ∃ t : Int, p.traversal_time = Value.int t := by
  by_cases he : util.IsEmpty p.traversal_time = true
  · exact Or.inl he
  · cases htv : p.traversal_time with
    | none => exact Or.inl rfl
    | int t => exact Or.inr ⟨t, rfl⟩
    | str s =>
        exfalso
        rw [htv] at he
        simp [Pathway.ValidateMinimumPathwayTime, htv, he] at h

/-- A passing pre-registration phase forces a passing
minimum-pathway-time check. -/
lemma beforeAdd_true_minTime (p : Pathway)
    (h : p.ValidateBeforeAdd.2 = true) :
    p.ValidateMinimumPathwayTime.2 = true := by
  simp only [Pathway.ValidateBeforeAdd, Bool.and_eq_true] at h
  exact h.1

/-- The distance check succeeds (no uncaught exception) on an attached
record whose two stops resolve. -/
lemma distance_isSome (p : Pathway) (s : Schedule)
    (hs : p._schedule = Option.some s)
    (h1 : p.from_stop_id ∈ s.stops) (h2 : p.to_stop_id ∈ s.stops) :
    (p.ValidatePathwayDistance).isSome = true := by
  simp only [Pathway.ValidatePathwayDistance, Pathway.GetPathwayDistance, hs,
    if_pos h1, if_pos h2]
  by_cases hd1 : s.dist p.from_stop_id p.to_stop_id > 10000
  · rw [if_pos hd1]; rfl
  · rw [if_neg hd1]
    by_cases hd2 : s.dist p.from_stop_id p.to_stop_id > 2000
    · rw [if_pos hd2]; rfl
    · rw [if_neg hd2]; rfl

/-- The walking-time check succeeds (no uncaught exception) on an attached
record whose two stops resolve and whose `traversal_time` is empty or an
integer. -/
lemma walking_isSome (p : Pathway) (s : Schedule)
    (hs : p._schedule = Option.some s)
    (h1 : p.from_stop_id ∈ s.stops) (h2 : p.to_stop_id ∈ s.stops)
    (htv : util.IsEmpty p.traversal_time = true ∨
      ∃ t : Int, p.traversal_time = Value.int t) :
    (p.ValidatePathwayWalkingTime).isSome = true := by
  rcases htv with he | ⟨t, ht⟩
  · simp [Pathway.ValidatePathwayWalkingTime, he]
  · by_cases hneg : t < 0
    · simp [Pathway.ValidatePathwayWalkingTime, ht, util.IsEmpty,
        Value.ltZero, hneg]
    · by_cases hc : (t : ℚ) + 120 < s.dist p.from_stop_id p.to_stop_id / 2 <;>
        simp [Pathway.ValidatePathwayWalkingTime, Pathway.GetPathwayDistance,
          ht, hs, h1, h2, util.IsEmpty, Value.ltZero, hneg, hc]

/-- C6: `Validate` runs the post-registration phase exactly when the
pre-registration phase passed and the record is attached to a registry; a
detached record triggers no registry lookup at all; within the
post-registration phase both resolvability checks always execute, and the
distance and walking-time checks run exactly when both stop ids
resolve. -/
theorem claimC6 (p : Pathway) :
    (p._schedule = Option.none →
      p.Validate = Option.some p.ValidateBeforeAdd.1 ∧
      p.ValidateBeforeAdd.1.filter Event.isLookup = []) ∧
    (p.ValidateBeforeAdd.2 = false →
      p.Validate = Option.some p.ValidateBeforeAdd.1) ∧
    (∀ s, p._schedule = Option.some s → p.ValidateBeforeAdd.2 = true →
      p.Validate = Option.map (fun e => p.ValidateBeforeAdd.1 ++ e)
        p.ValidateAfterAdd) ∧
    (∀ s, p._schedule = Option.some s →
      ∃ r1 r2, p.ValidateFromStopIdIsValid = Option.some r1 ∧
        p.ValidateToStopIdIsValid = Option.some r2 ∧
        (r1.2 = true ↔ p.from_stop_id ∈ s.stops) ∧
        (r2.2 = true ↔ p.to_stop_id ∈ s.stops) ∧
        ((r1.2 && r2.2) = false →
          p.ValidateAfterAdd = Option.some (r1.1 ++ r2.1)) ∧
        ((r1.2 && r2.2) = true →
          p.ValidateAfterAdd =
            Option.bind p.ValidatePathwayDistance (fun e3 =>
              Option.map (fun e4 => r1.1 ++ r2.1 ++ e3 ++ e4)
                p.ValidatePathwayWalkingTime))) := by
  refine ⟨?_, ?_, ?_, ?_⟩
  · intro hns
    exact ⟨by simp [Pathway.Validate, hns], beforeAdd_no_lookup p⟩
  · intro hb
    simp [Pathway.Validate, hb]
  · intro s hs hb
    cases ha : p.ValidateAfterAdd <;>
      simp [Pathway.Validate, hs, hb, ha]
  · intro s hs
    refine ⟨_, _, fromValid_eq p s hs, toValid_eq p s hs, ?_, ?_, ?_, ?_⟩
    · by_cases m1 : p.from_stop_id ∈ s.stops <;> simp [m1]
    · by_cases m2 : p.to_stop_id ∈ s.stops <;> simp [m2]
    · intro hb
      by_cases m1 : p.from_stop_id ∈ s.stops <;>
        by_cases m2 : p.to_stop_id ∈ s.stops <;>
        simp [m1, m2] at hb ⊢ <;>
        simp [Pathway.ValidateAfterAdd, fromValid_eq p s hs,
          toValid_eq p s hs, m1, m2]
    · intro hb
      by_cases m1 : p.from_stop_id ∈ s.stops <;>
        by_cases m2 : p.to_stop_id ∈ s.stops <;>
        simp [m1, m2] at hb
      cases hd : p.ValidatePathwayDistance <;>
        cases hw : p.ValidatePathwayWalkingTime <;>
        simp [Pathway.ValidateAfterAdd, fromValid_eq p s hs,
          toValid_eq p s hs, m1, m2, hd, hw]

/-- A concrete record not attached to any registry. -/
def exampleDetachedPathway : Pathway :=
  { _schedule := Option.none
    pathway_id := Value.str ("p1")
    from_stop_id := stopA
    to_stop_id := stopB
    pathway_mode := Value.int 2
    is_bidirectional := Value.int 1
    traversal_time := Value.none }

/-- C6, witness: a detached record stops after the pre-registration phase,
and a fully valid attached record runs the post-registration phase. -/
theorem claimC6_witness :
    exampleDetachedPathway.Validate =
      Option.some exampleDetachedPathway.ValidateBeforeAdd.1 ∧
    (examplePathway 500 (Value.int 100)).Validate =
      Option.map
        (fun e => (examplePathway 500 (Value.int 100)).ValidateBeforeAdd.1 ++ e)
        (examplePathway 500 (Value.int 100)).ValidateAfterAdd := by
  constructor
  · exact ((claimC6 exampleDetachedPathway).1 rfl).1
  · exact (claimC6 (examplePathway 500 (Value.int 100))).2.2.1
      (exampleSchedule 500) rfl (by decide)

/-- C10: a `Validate` call never hits an uncaught exception — in
particular the walking-speed arithmetic `traversal_time + 120` is never
applied to a non-integer, because a passing pre-registration phase forces
`traversal_time` to be empty or an integer, a failing one skips the
post-registration phase, and empty or negative values return early from
the walking check. -/
theorem claimC10 (p : Pathway) :
    (p.Validate).isSome = true ∧
    (p.ValidateBeforeAdd.2 = true →
      util.IsEmpty p.traversal_time = true ∨
        ∃ t : Int, p.traversal_time = Value.int t) := by
  constructor
  · cases hg : (p.ValidateBeforeAdd.2 && p._schedule.isSome) with
    | false => simp [Pathway.Validate, hg]
    | true =>
        have hg2 := hg
        rw [Bool.and_eq_true] at hg2
        have hb : p.ValidateBeforeAdd.2 = true := hg2.1
        have hsome : p._schedule.isSome = true := hg2.2
        obtain ⟨s, hs⟩ := Option.isSome_iff_exists.mp hsome
        have htv := minTime_true_cases p (beforeAdd_true_minTime p hb)
        have hAfter : (p.ValidateAfterAdd).isSome = true := by
          by_cases m1 : p.from_stop_id ∈ s.stops <;>
            by_cases m2 : p.to_stop_id ∈ s.stops
          · obtain ⟨e3, he3⟩ := Option.isSome_iff_exists.mp
              (distance_isSome p s hs m1 m2)
            obtain ⟨e4, he4⟩ := Option.isSome_iff_exists.mp
              (walking_isSome p s hs m1 m2 htv)
            simp [Pathway.ValidateAfterAdd, fromValid_eq p s hs,
              toValid_eq p s hs, m1, m2, he3, he4]
          all_goals
            simp [Pathway.ValidateAfterAdd, fromValid_eq p s hs,
              toValid_eq p s hs, m1, m2]
        obtain ⟨e, he⟩ := Option.isSome_iff_exists.mp hAfter
        simp [Pathway.Validate, hg, he]
  · intro hb
    exact minTime_true_cases p (beforeAdd_true_minTime p hb)

/-- C10, witness: the statement evaluated on a concrete attached record
with integer traversal time, discharging the pre-registration
hypothesis. -/
theorem claimC10_witness :
    ((examplePathway 500 (Value.int 100)).Validate).isSome = true ∧
    (util.IsEmpty (examplePathway 500 (Value.int 100)).traversal_time =
        true ∨
      ∃ t : Int, (examplePathway 500 (Value.int 100)).traversal_time =
        Value.int t) :=
  ⟨(claimC10 (examplePathway 500 (Value.int 100))).1,
   (claimC10 (examplePathway 500 (Value.int 100))).2 (by decide)⟩
